import Mathlib

/-!
Verification of the Serial-Studio network data source (`Network.cpp`) and
CSV export module (`CSV/Export.cpp`).

The two C++ classes are shallowly embedded as pure Lean functions over
explicit state records.  Interactions with the surrounding toolkit
(signal emissions, socket calls, DNS requests, message boxes) are
recorded as explicit `Effect` values, in the order the source performs
them.  Machine integers (`quint16`, `int`) are modelled as `Nat`/`Int`;
none of the verified properties exercises overflow.
-/

namespace Network

/-- The subset of `QAbstractSocket::SocketType` mentioned by the source. -/
inductive SocketType where
  | TcpSocket
  | UdpSocket
  | SctpSocket
  | UnknownSocketType
deriving DecidableEq, Repr

/-- The live transport object returned by `openNetworkPort` (a pointer to
either `m_tcpSocket` or `m_udpSocket` in the source). -/
inductive Handle where
  | tcp
  | udp
deriving DecidableEq, Repr

/-- Externally observable actions performed by the module: Qt signal
emissions, socket operations and calls into collaborating singletons. -/
inductive Effect where
  | emitPortChanged
  | emitAddressChanged
  | emitSocketTypeChanged
  | emitUdpMulticastChanged
  | emitLookupActiveChanged
  | dnsLookup (host : String)
  | abortTcp
  | abortUdp
  | disconnectTcpFromHost
  | disconnectUdpFromHost
  | tcpConnectToHost (address : String) (port : Nat)
  | udpBind (port : Nat) (shareAddress reuseAddressHint : Bool)
  | joinMulticastGroup (address : String)
  | managerDisconnectDevice
  | showMessageBox (title text : String)
deriving DecidableEq, Repr

/-- The member state of `IO::DataSources::Network` (socket internals are
kept outside the state and appear only as effects). -/
structure State where
  address : String
  tcpPort : Nat
  udpLocalPort : Nat
  udpRemotePort : Nat
  socketType : SocketType
  udpMulticast : Bool
  hostExists : Bool
  lookupActive : Bool
deriving DecidableEq, Repr

/-- Helper for `QString::simplified`: split a character list into maximal
whitespace-free words (accumulator holds the current word reversed). -/
def wordsAux : List Char → List Char → List (List Char)
  | [], acc => if acc.isEmpty then [] else [acc.reverse]
  | c :: rest, acc =>
    if c.isWhitespace then
      if acc.isEmpty then wordsAux rest [] else acc.reverse :: wordsAux rest []
    else wordsAux rest (c :: acc)

/-- `QString::simplified`: trims leading/trailing whitespace and collapses
internal whitespace runs into single spaces. -/
def qsimplified (s : String) : String :=
  String.intercalate " " ((wordsAux s.toList []).map (fun w => String.mk w))

/-- `Network::tcpPort` / `Network::configurationOk`:
`return tcpPort() > 0 && m_hostExists;` -/
def configurationOk (s : State) : Bool :=
  decide (0 < s.tcpPort) && s.hostExists

/-- `Network::socketTypeIndex`: 0 for TCP, 1 for UDP, -1 otherwise. -/
def socketTypeIndex (s : State) : Int :=
  match s.socketType with
  | SocketType.TcpSocket => 0
  | SocketType.UdpSocket => 1
  | _ => -1

/-- `Network::setTcpPort`. -/
def setTcpPort (port : Nat) (s : State) : State × List Effect :=
  ({ s with tcpPort := port }, [Effect.emitPortChanged])

/-- `Network::setUdpLocalPort`. -/
def setUdpLocalPort (port : Nat) (s : State) : State × List Effect :=
  ({ s with udpLocalPort := port }, [Effect.emitPortChanged])

/-- `Network::setUdpRemotePort`. -/
def setUdpRemotePort (port : Nat) (s : State) : State × List Effect :=
  ({ s with udpRemotePort := port }, [Effect.emitPortChanged])

/-- `Network::setUdpMulticast`. -/
def setUdpMulticast (enabled : Bool) (s : State) : State × List Effect :=
  ({ s with udpMulticast := enabled }, [Effect.emitUdpMulticastChanged])

/-- `Network::setSocketType`. -/
def setSocketType (t : SocketType) (s : State) : State × List Effect :=
  ({ s with socketType := t }, [Effect.emitSocketTypeChanged])

/-- `Network::setTcpSocket`. -/
def setTcpSocket (s : State) : State × List Effect :=
  setSocketType SocketType.TcpSocket s

/-- `Network::setUdpSocket`. -/
def setUdpSocket (s : State) : State × List Effect :=
  setSocketType SocketType.UdpSocket s

/-- `Network::setSocketTypeIndex`: the switch maps 0 to TCP, 1 to UDP and
falls through (no mutation, no signal) on every other index. -/
def setSocketTypeIndex (index : Int) (s : State) : State × List Effect :=
  match index with
  | 0 => setTcpSocket s
  | 1 => setUdpSocket s
  | _ => (s, [])

/-- `Network::lookup`: sets the lookup-active flag, notifies, and requests
an asynchronous DNS resolution of the simplified host string. -/
def lookup (host : String) (s : State) : State × List Effect :=
  ({ s with lookupActive := true },
   [Effect.emitLookupActiveChanged, Effect.dnsLookup (qsimplified host)])

/-- `Network::setRemoteAddress`.  The branch condition
`QHostAddress(address).isNull()` is abstracted by the parameter `isIP`
(`isIP address = true` exactly when the string parses as a literal
IPv4/IPv6 address, i.e. when `isNull()` is false). -/
def setRemoteAddress (isIP : String → Bool) (address : String) (s : State) :
    State × List Effect :=
  if isIP address = false then
    let r := lookup address { s with hostExists := false }
    ({ r.1 with address := address }, r.2 ++ [Effect.emitAddressChanged])
  else
    ({ s with hostExists := true, address := address }, [Effect.emitAddressChanged])

/-- The error classification of `QHostInfo` (`NoError` against the failure
codes `HostNotFound` / `UnknownError`). -/
inductive HostInfoError where
  | NoError
  | HostNotFound
  | UnknownError
deriving DecidableEq, Repr

/-- The part of `QHostInfo` that `Network::lookupFinished` inspects. -/
structure HostInfo where
  error : HostInfoError
  addresses : List String
deriving DecidableEq, Repr

/-- `Network::lookupFinished`: clears the lookup-active flag and, only on a
successful resolution carrying at least one address, marks the host as
existing.  No other member is touched and no message box is shown. -/
def lookupFinished (info : HostInfo) (s : State) : State × List Effect :=
  let s1 := { s with lookupActive := false }
  let es := [Effect.emitLookupActiveChanged]
  if info.error = HostInfoError.NoError then
    if 1 ≤ info.addresses.length then
      ({ s1 with hostExists := true }, es ++ [Effect.emitAddressChanged])
    else (s1, es)
  else (s1, es)

/-- `Network::disconnectDevice`: aborts both sockets then requests a
graceful shutdown on both, regardless of which one is active. -/
def disconnectDevice (s : State) : State × List Effect :=
  (s, [Effect.abortTcp, Effect.abortUdp,
       Effect.disconnectTcpFromHost, Effect.disconnectUdpFromHost])

/-- `Network::openNetworkPort`: tears down existing connections, then
opens the transport selected by the socket-type member.  `defaultAddress`
stands for the fixed fallback constant `defaultAddress()` declared in the
header. -/
def openNetworkPort (defaultAddress : String) (s : State) :
    Option Handle × List Effect :=
  let teardown := (disconnectDevice s).2
  let hostAddr := if s.address.isEmpty then defaultAddress else s.address
  match s.socketType with
  | SocketType.TcpSocket =>
      (some Handle.tcp, teardown ++ [Effect.tcpConnectToHost hostAddr s.tcpPort])
  | SocketType.UdpSocket =>
      (some Handle.udp,
       teardown ++ [Effect.udpBind s.udpLocalPort true true]
                ++ (if s.udpMulticast then [Effect.joinMulticastGroup s.address] else []))
  | _ => (none, teardown)

/-- `Network::onErrorOccurred`: chooses an error string from the active
socket type (not from the socket that raised the signal), then performs
one full device disconnect and one message box.  `raisedBy` records which
socket's `errorOccurred` signal invoked the slot; the body never consults
it, exactly as in the source. -/
def onErrorOccurred (raisedBy : Handle) (socketError : Int)
    (tcpErrorString udpErrorString : String) (s : State) : State × List Effect :=
  let error :=
    if s.socketType = SocketType.TcpSocket then tcpErrorString
    else if s.socketType = SocketType.UdpSocket then udpErrorString
    else toString socketError
  (s, [Effect.managerDisconnectDevice,
       Effect.showMessageBox "Network socket error" error])

/-- One mutating entry point of the module, used to state invariants that
quantify over everything the event loop may dispatch. -/
inductive Op where
  | opSetRemoteAddress (address : String)
  | opSetTcpPort (port : Nat)
  | opSetUdpLocalPort (port : Nat)
  | opSetUdpRemotePort (port : Nat)
  | opSetUdpMulticast (enabled : Bool)
  | opSetSocketType (t : SocketType)
  | opSetSocketTypeIndex (index : Int)
  | opSetTcpSocket
  | opSetUdpSocket
  | opDisconnectDevice
  | opOpenNetworkPort (defaultAddress : String)
  | opOnErrorOccurred (raisedBy : Handle) (socketError : Int)
      (tcpErrorString udpErrorString : String)
  | opLookupFinished (info : HostInfo)
deriving DecidableEq, Repr

/-- Whether an operation is the DNS resolution callback. -/
def Op.isLookupCallback : Op → Bool
  | Op.opLookupFinished _ => true
  | _ => false

/-- Dispatch one operation on the module state. -/
def apply (isIP : String → Bool) : Op → State → State × List Effect
  | Op.opSetRemoteAddress address, s => setRemoteAddress isIP address s
  | Op.opSetTcpPort port, s => setTcpPort port s
  | Op.opSetUdpLocalPort port, s => setUdpLocalPort port s
  | Op.opSetUdpRemotePort port, s => setUdpRemotePort port s
  | Op.opSetUdpMulticast enabled, s => setUdpMulticast enabled s
  | Op.opSetSocketType t, s => setSocketType t s
  | Op.opSetSocketTypeIndex index, s => setSocketTypeIndex index s
  | Op.opSetTcpSocket, s => setTcpSocket s
  | Op.opSetUdpSocket, s => setUdpSocket s
  | Op.opDisconnectDevice, s => disconnectDevice s
  | Op.opOpenNetworkPort defaultAddress, s => (s, (openNetworkPort defaultAddress s).2)
  | Op.opOnErrorOccurred raisedBy socketError tcpErrorString udpErrorString, s =>
      onErrorOccurred raisedBy socketError tcpErrorString udpErrorString s
  | Op.opLookupFinished info, s => lookupFinished info s

end Network

namespace CSV

/-- `CSV::RawFrame`: the received byte buffer (read back through
`QString::fromUtf8`, so modelled as the decoded string) together with the
receipt timestamp already rendered with the only format `writeValues`
uses, `"yyyy/MM/dd/ HH:mm:ss::zzz"`. -/
structure RawFrame where
  data : String
  rxTime : String
deriving DecidableEq, Repr

/-- One `JSON::Editor` dataset: its index and title, the two attributes
`createCsvFile` reads. -/
structure Dataset where
  index : Int
  title : String
deriving DecidableEq, Repr

/-- The collaborating singletons consulted by the export module:
`IO::Manager::separatorSequence`, the `JSON::Editor` group/dataset table,
and whether `QFile::open` succeeds for the generated path. -/
structure Env where
  sep : String
  groups : List (List Dataset)
  openSucceeds : Bool
deriving Repr

/-- The member state of `CSV::Export`.  `fileText` is the content of the
currently open CSV file; stream writes while no device is attached
(`m_textStream.setDevice(Q_NULLPTR)` after `closeFile`) are discarded, so
`fileText` changes only while `fileOpen` is true.  `alerts` records the
message boxes shown. -/
structure ExportState where
  fieldCount : Nat
  exportEnabled : Bool
  frames : List RawFrame
  fileOpen : Bool
  fileText : List Char
  alerts : List (String × String)
deriving DecidableEq, Repr

/-- Worker for `QString::split` with a nonempty separator, keeping empty
parts (Qt's default).  `fuel` only forces termination; `fuel = cs.length`
is always enough since every step consumes at least one character. -/
def splitCharsAux (sep : List Char) (fuel : Nat) (cs acc : List Char) :
    List (List Char) :=
  match fuel, cs with
  | _, [] => [acc.reverse]
  | 0, rest => [acc.reverse ++ rest]
  | fuel + 1, c :: rest =>
    if sep.isPrefixOf (c :: rest) then
      acc.reverse :: splitCharsAux sep fuel (List.drop (sep.length - 1) rest) []
    else
      splitCharsAux sep fuel rest (c :: acc)

/-- `QString::split(sep)` on character lists: with an empty separator Qt
returns an empty part, every character, and a final empty part; otherwise
the string is cut at each left-to-right occurrence of `sep`. -/
def qsplitChars (sep cs : List Char) : List (List Char) :=
  if sep.isEmpty then [] :: cs.map (fun c => [c]) ++ [[]]
  else splitCharsAux sep cs.length cs []

/-- The trailing-comma padding of `writeValues`: with
`d = m_fieldCount - fields.count()` (a signed difference), the loop
`for (k = 0; k < d - 1; ++k)` emits `d - 1` commas when `d > 0`. -/
def padding (fieldCount nfields : Nat) : List Char :=
  let d : Int := (fieldCount : Int) - (nfields : Int)
  if 0 < d then List.replicate (d - 1).toNat ',' else []

/-- The inner `j` loop of `writeValues`: each field is emitted, followed
by a comma when more fields remain, and on the last field by the padding
and a newline.  `total` is `fields.count()`, fixed before the loop. -/
def emitFields (fieldCount total : Nat) : List (List Char) → List Char
  | [] => []
  | [f] => f ++ padding fieldCount total ++ [Char.ofNat 10]
  | f :: rest => f ++ ',' :: emitFields fieldCount total rest

/-- One row of `writeValues` for one frame: the rendered receipt time, a
comma, then the payload split by the separator sequence and emitted by
the `j` loop. -/
def writeFrameRow (sep : String) (fieldCount : Nat) (f : RawFrame) : List Char :=
  let fields := qsplitChars sep.toList f.data.toList
  f.rxTime.toList ++ ',' :: emitFields fieldCount fields.length fields

/-- The dataset scan of `createCsvFile`: walk every group's datasets in
order and keep each dataset whose index was not seen before
(`!fields.contains(dataset.index())`). -/
def collectFields (groups : List (List Dataset)) : List Dataset :=
  groups.flatten.foldl
    (fun acc d => if acc.any (fun e => e.index = d.index) then acc else acc ++ [d])
    []

/-- The header loop of `createCsvFile`: `<title>(field <i+1>)` cells,
comma-separated, newline after the last (nothing at all when the schema
declares zero fields, as in the source loop). -/
def headerCells (i : Nat) : List Dataset → List Char
  | [] => []
  | [d] => d.title.toList ++ "(field ".toList ++ (Nat.repr (i + 1)).toList
             ++ [')', Char.ofNat 10]
  | d :: rest => d.title.toList ++ "(field ".toList ++ (Nat.repr (i + 1)).toList
             ++ [')', ','] ++ headerCells (i + 1) rest

/-- `CSV::Export::createCsvFile` (path derivation elided: the directory
and file name feed only into `QFile::setFileName`).  On open failure a
message box is shown and the nested `closeFile()` is a no-op because the
file is not open; on success the stream is attached to the fresh file,
the field count is recomputed from the schema and the title row is
written. -/
def createCsvFile (env : Env) (s : ExportState) : ExportState :=
  if env.openSucceeds then
    let ds := collectFields env.groups
    { s with fileOpen := true,
             fieldCount := ds.length,
             fileText := "RX Date/Time,".toList ++ headerCells 0 ds }
  else
    { s with alerts := s.alerts ++ [("CSV File Error", "Cannot open CSV file for writing!")] }

/-- The body of `writeValues` for one frame: create the file first when it
is not open and export is enabled, then write the row (dropped when the
stream has no device, i.e. when no file is open). -/
def writeFrame (env : Env) (s : ExportState) (f : RawFrame) : ExportState :=
  let s1 := if s.fileOpen = false ∧ s.exportEnabled = true then createCsvFile env s else s
  if s1.fileOpen then
    { s1 with fileText := s1.fileText ++ writeFrameRow env.sep s1.fieldCount f }
  else s1

/-- `CSV::Export::writeValues`: iterate the buffered frames in arrival
order, then clear the buffer.  Nothing inside the loop mutates `m_frames`
(the `closeFile` reachable through a failed `createCsvFile` sees a closed
file and returns immediately), so the index loop is a fold over the
snapshot. -/
def writeValues (env : Env) (s : ExportState) : ExportState :=
  let s1 := s.frames.foldl (writeFrame env) s
  { s1 with frames := [] }

/-- `CSV::Export::closeFile`: when the file is open, drain the buffer
(`while (!m_frames.isEmpty()) writeValues();` runs `writeValues` at most
once since it clears `m_frames`), reset the field count and close.  The
`openChanged` emission is not tracked. -/
def closeFile (env : Env) (s : ExportState) : ExportState :=
  if s.fileOpen then
    let s1 := if s.frames.isEmpty then s else writeValues env s
    { s1 with fieldCount := 0, fileOpen := false }
  else s

/-- `CSV::Export::setExportEnabled`: store the flag, and when export was
just disabled while a file is open, clear the buffered frames and close
the file. -/
def setExportEnabled (env : Env) (enabled : Bool) (s : ExportState) : ExportState :=
  let s1 := { s with exportEnabled := enabled }
  if s1.exportEnabled = false ∧ s1.fileOpen = true then
    closeFile env { s1 with frames := [] }
  else s1

/-- `CSV::Export::registerFrame`: drop the buffer when the device is not
connected, when the current dashboard frame is invalid, or when export is
disabled; otherwise append the timestamped frame.  `connected` and
`frameValid` stand for `IO::Manager::connected()` and
`UI::Dashboard::currentFrame().isValid()`; `now` is the receipt
timestamp. -/
def registerFrame (connected frameValid : Bool) (data now : String)
    (s : ExportState) : ExportState :=
  if connected = false then s
  else if frameValid = false then s
  else if s.exportEnabled = false then s
  else { s with frames := s.frames ++ [{ data := data, rxTime := now }] }

/-- Observation: in a CSV row `ts,c1,...,ck\n` whose cells contain no
comma, the number of comma-separated data columns after the timestamp
column equals the number of `,` characters in the row. -/
def dataColumnCount (row : List Char) : Nat :=
  row.count ','

/-- Observation: the comma-separated cells of a written row, after
stripping the trailing newline. -/
def rowCells (row : List Char) : List (List Char) :=
  qsplitChars [','] (if row.getLast? = some (Char.ofNat 10) then row.dropLast else row)

end CSV

namespace Network

/-- An effect is the `Manager::getInstance()->disconnectDevice()` call. -/
def Effect.isManagerDisconnect : Effect → Bool
  | Effect.managerDisconnectDevice => true
  | _ => false

/-- An effect is a user-visible alert (`Misc::Utilities::showMessageBox`). -/
def Effect.isUserAlert : Effect → Bool
  | Effect.showMessageBox _ _ => true
  | _ => false

/-- A concrete endpoint state used to instantiate universally quantified
theorems. -/
def sampleState : State :=
  { address := ""
    tcpPort := 23
    udpLocalPort := 0
    udpRemotePort := 0
    socketType := SocketType.TcpSocket
    udpMulticast := false
    hostExists := false
    lookupActive := false }

/-- `sampleState` with a DNS lookup in flight. -/
def sampleLookupState : State :=
  { sampleState with lookupActive := true }

end Network

namespace CSV

/-- A concrete environment: separator `,`, a schema declaring three
distinct dataset indices, file creation succeeding. -/
def sampleEnv : Env :=
  { sep := ","
    groups := [[{ index := 1, title := "A" }],
               [{ index := 2, title := "B" }, { index := 3, title := "C" }]]
    openSucceeds := true }

/-- A concrete frame whose payload splits into two fields under `,`. -/
def sampleFrame : RawFrame :=
  { data := "12,34", rxTime := "2021/01/02/ 03:04:05::006" }

/-- A concrete export state with an open file, schema field count 3 and
one buffered frame. -/
def sampleOpenState : ExportState :=
  { fieldCount := 3
    exportEnabled := true
    frames := [sampleFrame]
    fileOpen := true
    fileText := []
    alerts := [] }

end CSV

/-- C3: for every configuration state of the network endpoint,
`configurationOk()` returns true if and only if the TCP port is greater
than 0 and the host has been marked resolved. -/
theorem c3_configurationOk_iff (s : Network.State) :
    Network.configurationOk s = true ↔ (0 < s.tcpPort ∧ s.hostExists = true) := by
  simp [Network.configurationOk]

/-- C4: for every address string that parses as a literal IP address
(`isIP address = true`), `setRemoteAddress` marks the host resolved
synchronously, leaves the lookup-active flag unchanged, and emits only
the address-change notification — in particular it issues no DNS
lookup. -/
theorem c4_literal_ip_synchronous (isIP : String → Bool) (address : String)
    (s : Network.State) (h : isIP address = true) :
    (Network.setRemoteAddress isIP address s).1.hostExists = true
    ∧ (Network.setRemoteAddress isIP address s).1.lookupActive = s.lookupActive
    ∧ (Network.setRemoteAddress isIP address s).2 = [Network.Effect.emitAddressChanged] := by
  simp [Network.setRemoteAddress, h]

/-- Witness for C4 at a concrete literal-IP parser, address and state. -/
theorem c4_literal_ip_synchronous_witness :
    (Network.setRemoteAddress (fun _ => true) "127.0.0.1" Network.sampleState).1.hostExists = true
    ∧ (Network.setRemoteAddress (fun _ => true) "127.0.0.1" Network.sampleState).1.lookupActive
        = Network.sampleState.lookupActive
    ∧ (Network.setRemoteAddress (fun _ => true) "127.0.0.1" Network.sampleState).2
        = [Network.Effect.emitAddressChanged] :=
  c4_literal_ip_synchronous (fun _ => true) "127.0.0.1" Network.sampleState rfl

/-- C7: for every socket error event, from either transport and under any
active socket type, the handler performs exactly one device-manager
disconnect and exactly one user-visible alert, and its behaviour does not
depend on which transport raised the signal. -/
theorem c7_socket_error_once (raisedBy : Network.Handle) (socketError : Int)
    (tcpErrorString udpErrorString : String) (s : Network.State) :
    ((Network.onErrorOccurred raisedBy socketError tcpErrorString udpErrorString s).2.countP
        Network.Effect.isManagerDisconnect = 1)
    ∧ ((Network.onErrorOccurred raisedBy socketError tcpErrorString udpErrorString s).2.countP
        Network.Effect.isUserAlert = 1)
    ∧ Network.onErrorOccurred Network.Handle.tcp socketError tcpErrorString udpErrorString s
        = Network.onErrorOccurred Network.Handle.udp socketError tcpErrorString udpErrorString s := by
  refine ⟨?_, ?_, rfl⟩ <;>
    simp [Network.onErrorOccurred, List.countP_cons, Network.Effect.isManagerDisconnect,
      Network.Effect.isUserAlert]

/-- C9: a DNS lookup that fails (resolution error, or success with zero
addresses) only clears the lookup-active flag and emits its change
notification: the host-exists flag and every other member keep their
previous value and no message box is produced. -/
theorem c9_failed_lookup_silent (info : Network.HostInfo) (s : Network.State)
    (h : info.error ≠ Network.HostInfoError.NoError ∨ info.addresses = []) :
    Network.lookupFinished info s
      = ({ s with lookupActive := false }, [Network.Effect.emitLookupActiveChanged]) := by
  rcases h with h | h <;> simp [Network.lookupFinished, h]

/-- Witness for C9 at a concrete failed resolution. -/
theorem c9_failed_lookup_silent_witness :
    Network.lookupFinished
        { error := Network.HostInfoError.HostNotFound, addresses := [] }
        Network.sampleState
      = ({ Network.sampleState with lookupActive := false },
         [Network.Effect.emitLookupActiveChanged]) :=
  c9_failed_lookup_silent
    { error := Network.HostInfoError.HostNotFound, addresses := [] }
    Network.sampleState (Or.inl (by decide))

/-- C10: `setSocketTypeIndex` with any index other than 0 and 1 leaves the
state unchanged and emits nothing, and `socketTypeIndex` returns 0
exactly for TCP, 1 exactly for UDP, and -1 exactly for the remaining
socket types. -/
theorem c10_socket_type_index (index : Int) (s : Network.State)
    (h0 : index ≠ 0) (h1 : index ≠ 1) :
    Network.setSocketTypeIndex index s = (s, [])
    ∧ (Network.socketTypeIndex s = 0 ↔ s.socketType = Network.SocketType.TcpSocket)
    ∧ (Network.socketTypeIndex s = 1 ↔ s.socketType = Network.SocketType.UdpSocket)
    ∧ (Network.socketTypeIndex s = -1 ↔
        (s.socketType ≠ Network.SocketType.TcpSocket
         ∧ s.socketType ≠ Network.SocketType.UdpSocket)) := by
  refine ⟨?_, ?_, ?_, ?_⟩
  · unfold Network.setSocketTypeIndex
    split
    · exact absurd rfl h0
    · exact absurd rfl h1
    · rfl
  all_goals cases h : s.socketType <;> simp [Network.socketTypeIndex, h]

/-- Witness for C10 at index 2 and a concrete state. -/
theorem c10_socket_type_index_witness :
    Network.setSocketTypeIndex 2 Network.sampleState = (Network.sampleState, [])
    ∧ (Network.socketTypeIndex Network.sampleState = 0
        ↔ Network.sampleState.socketType = Network.SocketType.TcpSocket)
    ∧ (Network.socketTypeIndex Network.sampleState = 1
        ↔ Network.sampleState.socketType = Network.SocketType.UdpSocket)
    ∧ (Network.socketTypeIndex Network.sampleState = -1
        ↔ (Network.sampleState.socketType ≠ Network.SocketType.TcpSocket
           ∧ Network.sampleState.socketType ≠ Network.SocketType.UdpSocket)) :=
  c10_socket_type_index 2 Network.sampleState (by decide) (by decide)

/-- C5: for every non-IP address string, `setRemoteAddress` marks the host
unresolved and sets lookup-active true; no operation other than the
resolution callback ever clears lookup-active; the callback
`lookupFinished` clears it, and makes the host-exists flag true exactly
when it was already true or the resolution succeeded with at least one
address. -/
theorem c5_lookup_lifecycle (isIP : String → Bool) :
    (∀ address s, isIP address = false →
        (Network.setRemoteAddress isIP address s).1.hostExists = false
        ∧ (Network.setRemoteAddress isIP address s).1.lookupActive = true)
    ∧ (∀ (op : Network.Op) (s : Network.State), op.isLookupCallback = false →
        s.lookupActive = true → (Network.apply isIP op s).1.lookupActive = true)
    ∧ (∀ info s,
        (Network.lookupFinished info s).1.lookupActive = false
        ∧ ((Network.lookupFinished info s).1.hostExists = true ↔
            (s.hostExists = true
             ∨ (info.error = Network.HostInfoError.NoError
                ∧ 1 ≤ info.addresses.length)))) := by
  refine ⟨?_, ?_, ?_⟩
  · intro address s h
    simp [Network.setRemoteAddress, Network.lookup, h]
  · intro op s hcb hla
    cases op <;>
      simp_all [Network.apply, Network.Op.isLookupCallback, Network.setRemoteAddress,
        Network.lookup, Network.setTcpPort, Network.setUdpLocalPort,
        Network.setUdpRemotePort, Network.setUdpMulticast, Network.setSocketType,
        Network.setTcpSocket, Network.setUdpSocket, Network.setSocketTypeIndex,
        Network.disconnectDevice, Network.openNetworkPort, Network.onErrorOccurred] <;>
      split <;> simp_all
  · intro info s
    by_cases he : info.error = Network.HostInfoError.NoError
    · by_cases hn : 1 ≤ info.addresses.length
      · simp [Network.lookupFinished, he, hn]
      · simp [Network.lookupFinished, he, hn]
    · simp [Network.lookupFinished, he]

/-- Witness for C5: a concrete non-IP address, a concrete non-callback
operation on an in-flight lookup, and a concrete successful resolution. -/
theorem c5_lookup_lifecycle_witness :
    (Network.setRemoteAddress (fun _ => false) "example.com"
        Network.sampleState).1.lookupActive = true
    ∧ (Network.apply (fun _ => false) (Network.Op.opSetTcpPort 9)
        Network.sampleLookupState).1.lookupActive = true
    ∧ (Network.lookupFinished
        { error := Network.HostInfoError.NoError, addresses := ["1.2.3.4"] }
        Network.sampleLookupState).1.hostExists = true :=
  ⟨((c5_lookup_lifecycle (fun _ => false)).1 "example.com" Network.sampleState rfl).2,
   (c5_lookup_lifecycle (fun _ => false)).2.1 (Network.Op.opSetTcpPort 9)
     Network.sampleLookupState rfl rfl,
   ((c5_lookup_lifecycle (fun _ => false)).2.2
      { error := Network.HostInfoError.NoError, addresses := ["1.2.3.4"] }
      Network.sampleLookupState).2.mpr (Or.inr ⟨rfl, by decide⟩)⟩

/-- C8: `openNetworkPort` always performs the four teardown calls first;
with socket type TCP it then connects to the configured address (or the
default address when the configured one is empty) at the TCP port and
returns the TCP handle; with socket type UDP it binds the UDP socket to
the local port with both address-reuse flags and joins the multicast
group at the configured address exactly when the multicast flag is set,
returning the UDP handle; with any other socket type it returns a null
handle. -/
theorem c8_open_network_port (defaultAddress : String) (s : Network.State) :
    ((Network.openNetworkPort defaultAddress s).2.take 4
        = [Network.Effect.abortTcp, Network.Effect.abortUdp,
           Network.Effect.disconnectTcpFromHost, Network.Effect.disconnectUdpFromHost])
    ∧ (s.socketType = Network.SocketType.TcpSocket →
        Network.openNetworkPort defaultAddress s
          = (some Network.Handle.tcp,
             [Network.Effect.abortTcp, Network.Effect.abortUdp,
              Network.Effect.disconnectTcpFromHost, Network.Effect.disconnectUdpFromHost,
              Network.Effect.tcpConnectToHost
                (if s.address.isEmpty then defaultAddress else s.address) s.tcpPort]))
    ∧ (s.socketType = Network.SocketType.UdpSocket →
        Network.openNetworkPort defaultAddress s
          = (some Network.Handle.udp,
             [Network.Effect.abortTcp, Network.Effect.abortUdp,
              Network.Effect.disconnectTcpFromHost, Network.Effect.disconnectUdpFromHost,
              Network.Effect.udpBind s.udpLocalPort true true]
             ++ (if s.udpMulticast then [Network.Effect.joinMulticastGroup s.address] else [])))
    ∧ (s.socketType ≠ Network.SocketType.TcpSocket →
       s.socketType ≠ Network.SocketType.UdpSocket →
        Network.openNetworkPort defaultAddress s
          = (none,
             [Network.Effect.abortTcp, Network.Effect.abortUdp,
              Network.Effect.disconnectTcpFromHost, Network.Effect.disconnectUdpFromHost])) := by
  refine ⟨?_, ?_, ?_, ?_⟩ <;>
    cases h : s.socketType <;>
      simp [Network.openNetworkPort, Network.disconnectDevice, h, List.take]

/-- Witness for C8: the TCP branch at a concrete state and default
address. -/
theorem c8_open_network_port_witness :
    Network.openNetworkPort "127.0.0.1" Network.sampleState
      = (some Network.Handle.tcp,
         [Network.Effect.abortTcp, Network.Effect.abortUdp,
          Network.Effect.disconnectTcpFromHost, Network.Effect.disconnectUdpFromHost,
          Network.Effect.tcpConnectToHost
            (if Network.sampleState.address.isEmpty then "127.0.0.1"
             else Network.sampleState.address) Network.sampleState.tcpPort]) :=
  (c8_open_network_port "127.0.0.1" Network.sampleState).2.1 rfl

theorem splitCharsAux_ne_nil (sep : List Char) (fuel : Nat) (cs acc : List Char) :
    CSV.splitCharsAux sep fuel cs acc ≠ [] := by
  induction fuel generalizing cs acc with
  | zero => cases cs <;> simp [CSV.splitCharsAux]
  | succ n ih =>
    cases cs with
    | nil => simp [CSV.splitCharsAux]
    | cons c rest =>
      simp only [CSV.splitCharsAux]
      split
      · simp
      · exact ih rest (c :: acc)

theorem qsplitChars_ne_nil (sep cs : List Char) : CSV.qsplitChars sep cs ≠ [] := by
  unfold CSV.qsplitChars
  split
  · simp
  · exact splitCharsAux_ne_nil sep cs.length cs []

theorem padding_count_comma (fc n : Nat) :
    (CSV.padding fc n).count ',' = if n < fc then fc - n - 1 else 0 := by
  by_cases h : n < fc
  · have hd : (0 : Int) < (fc : Int) - (n : Int) := by omega
    simp only [CSV.padding, if_pos hd, List.count_replicate_self, if_pos h]
    omega
  · have hd : ¬ (0 : Int) < (fc : Int) - (n : Int) := by omega
    simp [CSV.padding, hd, h]

theorem emitFields_count_comma (fc total : Nat) (fields : List (List Char))
    (hne : fields ≠ [])
    (hcf : ∀ x ∈ fields, ',' ∉ x) :
    (CSV.emitFields fc total fields).count ','
      = fields.length - 1 + (CSV.padding fc total).count ',' := by
  induction fields with
  | nil => exact absurd rfl hne
  | cons f rest ih =>
    cases rest with
    | nil =>
      have hf : ',' ∉ f := hcf f (by simp)
      simp [CSV.emitFields, List.count_append, List.count_eq_zero.mpr hf]
    | cons g rest2 =>
      have hf : ',' ∉ f := hcf f (by simp)
      have ih2 := ih (by simp) (fun x hx => hcf x (List.mem_cons_of_mem f hx))
      simp [CSV.emitFields, List.count_append, List.count_cons,
        List.count_eq_zero.mpr hf, ih2]
      omega

theorem foldl_writeFrame_open (env : CSV.Env) (frames : List CSV.RawFrame)
    (s : CSV.ExportState) (h : s.fileOpen = true) :
    frames.foldl (CSV.writeFrame env) s
      = { s with fileText := s.fileText
            ++ (frames.map (CSV.writeFrameRow env.sep s.fieldCount)).flatten } := by
  induction frames generalizing s with
  | nil => simp
  | cons f rest ih =>
    have hstep : CSV.writeFrame env s f
        = { s with fileText := s.fileText ++ CSV.writeFrameRow env.sep s.fieldCount f } := by
      unfold CSV.writeFrame
      simp [h]
    have hopen : (CSV.writeFrame env s f).fileOpen = true := by rw [hstep]; exact h
    simp only [List.foldl_cons]
    rw [ih (CSV.writeFrame env s f) hopen]
    rw [hstep]
    simp [List.append_assoc]

/-- C1 counterexample: with schema field count 3 and a frame whose payload
"12,34" splits by the separator "," into 2 fields, the written row is
`<rxTime>,12,34\n`: its cells after the timestamp are `12` and `34`, i.e.
exactly 2 data columns, not the 3 the claim requires (no empty column is
padded, since the padding loop runs `d - 1 = 0` times). -/
theorem c1_padded_row_counterexample :
    (CSV.qsplitChars ",".toList CSV.sampleFrame.data.toList).length = 2
    ∧ (CSV.qsplitChars ",".toList CSV.sampleFrame.data.toList).length < 3
    ∧ CSV.rowCells (CSV.writeFrameRow "," 3 CSV.sampleFrame)
        = [CSV.sampleFrame.rxTime.toList, "12".toList, "34".toList]
    ∧ CSV.dataColumnCount (CSV.writeFrameRow "," 3 CSV.sampleFrame) = 2
    ∧ ¬ CSV.dataColumnCount (CSV.writeFrameRow "," 3 CSV.sampleFrame) = 3 := by
  refine ⟨by decide, by decide, by decide, by decide, by decide⟩

/-- C1 (amended): for every frame whose payload splits by the separator
sequence into fewer fields than the schema-declared field count, the row
written by `writeValues` has exactly `fieldCount - 1` comma-separated
data columns after the timestamp column — one fewer than the declared
count, because the padding loop emits `d - 1` commas for a deficit of
`d`.  In particular, with field count 3 and a frame that parses into 2
fields, the row has exactly 2 data columns after the timestamp.  (The
cells are assumed comma-free, as the timestamp format guarantees for the
first column; otherwise column counting is not well defined.) -/
theorem c1_short_frame_padding (sep : String) (fieldCount : Nat) (f : CSV.RawFrame)
    (hts : ',' ∉ f.rxTime.toList)
    (hcf : ∀ x ∈ CSV.qsplitChars sep.toList f.data.toList, ',' ∉ x)
    (hlt : (CSV.qsplitChars sep.toList f.data.toList).length < fieldCount) :
    CSV.dataColumnCount (CSV.writeFrameRow sep fieldCount f) = fieldCount - 1 := by
  have hne := qsplitChars_ne_nil sep.toList f.data.toList
  have hpos : 0 < (CSV.qsplitChars sep.toList f.data.toList).length :=
    List.length_pos.mpr hne
  unfold CSV.dataColumnCount CSV.writeFrameRow
  rw [List.count_append, List.count_cons, emitFields_count_comma _ _ _ hne hcf,
    padding_count_comma, if_pos hlt, List.count_eq_zero.mpr hts]
  simp only [beq_self_eq_true, if_true]
  omega

/-- Witness for C1 (amended): a one-field payload against field count 3
gives 2 data columns. -/
theorem c1_short_frame_padding_witness :
    CSV.dataColumnCount (CSV.writeFrameRow "," 3 { data := "ab", rxTime := "T" }) = 2 :=
  c1_short_frame_padding "," 3 { data := "ab", rxTime := "T" }
    (by decide) (by decide) (by decide)

/-- C2 counterexample: a byte buffer delivered to `registerFrame` while
the device manager reports disconnected is silently dropped — the frame
buffer stays empty, no raw frame is appended. -/
theorem c2_register_frame_counterexample :
    CSV.registerFrame false true "12,34" "T" { CSV.sampleOpenState with frames := [] }
      = { CSV.sampleOpenState with frames := [] }
    ∧ (CSV.registerFrame false true "12,34" "T"
        { CSV.sampleOpenState with frames := [] }).frames = [] := by
  exact ⟨rfl, rfl⟩

/-- C2 (amended): a delivered byte buffer is appended to the frame buffer
(as the buffer plus receipt timestamp) exactly when the device is
connected, the current dashboard frame is valid and export is enabled;
otherwise the buffer is unchanged.  `writeValues` consumes the whole
buffer: it clears it after processing, and when the output file is open
it appends each buffered frame's row to the file, in order. -/
theorem c2_frame_buffer_lifecycle :
    (∀ (connected frameValid : Bool) (data now : String) (s : CSV.ExportState),
        (CSV.registerFrame connected frameValid data now s).frames
          = if connected = true ∧ frameValid = true ∧ s.exportEnabled = true
            then s.frames ++ [{ data := data, rxTime := now }]
            else s.frames)
    ∧ (∀ env s, (CSV.writeValues env s).frames = [])
    ∧ (∀ env (s : CSV.ExportState), s.fileOpen = true →
        (CSV.writeValues env s).fileText
          = s.fileText
            ++ (s.frames.map (CSV.writeFrameRow env.sep s.fieldCount)).flatten) := by
  refine ⟨?_, ?_, ?_⟩
  · intro connected frameValid data now s
    cases connected <;> cases frameValid <;>
      cases he : s.exportEnabled <;>
        simp [CSV.registerFrame, he]
  · intro env s
    simp [CSV.writeValues]
  · intro env s h
    unfold CSV.writeValues
    rw [foldl_writeFrame_open env s.frames s h]

/-- Witness for C2 (amended): flushing a concrete open state writes the
single buffered frame's row. -/
theorem c2_frame_buffer_lifecycle_witness :
    (CSV.writeValues CSV.sampleEnv CSV.sampleOpenState).fileText
      = CSV.sampleOpenState.fileText
        ++ (CSV.sampleOpenState.frames.map
              (CSV.writeFrameRow CSV.sampleEnv.sep CSV.sampleOpenState.fieldCount)).flatten :=
  c2_frame_buffer_lifecycle.2.2 CSV.sampleEnv CSV.sampleOpenState rfl

/-- C6: disabling export while the output file is open clears every
buffered frame and closes the file without writing anything: the file's
contents after the call equal its contents before. -/
theorem c6_disable_export_discards (env : CSV.Env) (s : CSV.ExportState)
    (h : s.fileOpen = true) :
    (CSV.setExportEnabled env false s).fileText = s.fileText
    ∧ (CSV.setExportEnabled env false s).frames = []
    ∧ (CSV.setExportEnabled env false s).fileOpen = false := by
  unfold CSV.setExportEnabled
  simp [h, CSV.closeFile]

/-- Witness for C6 at a concrete open state with one buffered frame. -/
theorem c6_disable_export_discards_witness :
    (CSV.setExportEnabled CSV.sampleEnv false CSV.sampleOpenState).fileText
        = CSV.sampleOpenState.fileText
    ∧ (CSV.setExportEnabled CSV.sampleEnv false CSV.sampleOpenState).frames = []
    ∧ (CSV.setExportEnabled CSV.sampleEnv false CSV.sampleOpenState).fileOpen = false :=
  c6_disable_export_discards CSV.sampleEnv CSV.sampleOpenState rfl
